import Mathlib

/-!
Verification of the arpscan_tracker integration's discovery-and-presence core.

The definitions below are a shallow embedding of the Python source:
- `custom_components/arpscan_tracker/scanner.py` (`ArpScanner._lookup_vendor`,
  `ArpScanner._lookup_hostname`, `ArpScanner._scan_sync`),
- `custom_components/arpscan_tracker/__init__.py` (`async_update_data`,
  `async_setup_entry`'s first refresh),
- `custom_components/arpscan_tracker/device_tracker.py` (`ArpScanDeviceTracker`
  properties `is_connected`, `ip_address`, `hostname`).

Python strings are Lean `String`; timestamps (`datetime` values and the float
second differences between them) are abstracted to `Int` seconds; I/O outcomes
(scapy's `srp`, `socket.gethostbyaddr`, the `ouilookup` database) are passed in
as explicit data so every embedded function is pure and executable.
-/

namespace ArpScanTracker

/-- A discovered device, the dict
`{"ip": ip, "mac": mac, "vendor": vendor or "Unknown", "hostname": hostname}`
appended by `ArpScanner._scan_sync`.  `vendor` has type `String` (not
`Option String`): the source always stores a string here. -/
structure Device where
  ip : String
  mac : String
  vendor : String
  hostname : Option String
deriving DecidableEq, Repr

/-- Python `v or "Unknown"` for `v : str | None`: `None` and the empty string
are falsy, any other string is returned unchanged. -/
def pyOrUnknown : Option String → String
  | none => "Unknown"
  | some s => if s = "" then "Unknown" else s

/-- Python `s.lower()` (per-character lowercasing, as used on MAC strings). -/
def pyLower (s : String) : String :=
  String.mk (s.data.map Char.toLower)

/-- Outcome of `self._oui_db.query(mac)` in `_lookup_vendor`: the call either
raises, or returns a list of dicts (each dict modelled as an association
list), e.g. `[{'AA:BB:CC': 'Vendor Name'}]`. -/
inductive OuiQueryOutcome where
  | raises
  | ok (result : List (List (String × String)))

/-- The loop `for item in result: for _, vendor in item.items(): return str(vendor)`
in `_lookup_vendor`: the first value of the first non-empty dict, if any. -/
def firstDictValue : List (List (String × String)) → Option String
  | [] => none
  | item :: rest =>
    match item with
    | [] => firstDictValue rest
    | (_, vendor) :: _ => some vendor

/-- `ArpScanner._lookup_vendor`: `None` when the OUI database is absent
(`self._oui_db is None`), when the query raises, or when the query result
holds no vendor value; otherwise the first vendor value found. -/
def lookupVendor (ouiDb : Option (String → OuiQueryOutcome)) (mac : String) :
    Option String :=
  match ouiDb with
  | none => none
  | some query =>
    match query mac with
    | .raises => none
    | .ok result => firstDictValue result

/-- Python `s.split(sep)` for a one-character separator, on the character
list of the string: `"" ↦ [""]`, `"a.b" ↦ ["a", "b"]`, `"." ↦ ["", ""]`. -/
def splitOnChar (sep : Char) : List Char → List (List Char)
  | [] => [[]]
  | c :: cs =>
    let rest := splitOnChar sep cs
    if c = sep then [] :: rest
    else (c :: rest.headD []) :: rest.tail

/-- Python `s.replace(old, new)` for one-character `old`/`new` arguments
(as in `short_name.replace("-", ".")`): a per-character map. -/
def pyReplaceChar (old new : Char) (s : String) : String :=
  String.mk (s.data.map fun c => if c = old then new else c)

/-- `ArpScanner._lookup_hostname`.  `resolved` is the outcome of
`socket.gethostbyaddr(ip)`: `none` models the caught `herror`/`gaierror`/
`OSError`, `some hostname` a successful resolution.  The source then runs:
`if hostname and "." in hostname`, `short_name = hostname.split(".")[0]`,
`if short_name.replace("-", ".") == ip: return hostname`, `return short_name`,
else `return hostname`. -/
def lookupHostname (resolved : Option String) (ip : String) : Option String :=
  match resolved with
  | none => none
  | some hostname =>
    if hostname ≠ "" ∧ '.' ∈ hostname.data then
      let shortName := String.mk ((splitOnChar '.' hostname.data).headD [])
      if pyReplaceChar '-' '.' shortName = ip then some hostname
      else some shortName
    else some hostname

/-- The hostname rule exactly as the specification words it (for comparison
with `lookupHostname`): on failure `null`; a name containing a dot yields its
first label (the characters before the first dot) unless that label with
hyphens mapped back to dots equals the literal IP, in which case the full
name is kept; a name without a dot is returned as-is. -/
def hostnameRuleSpec (resolved : Option String) (ip : String) : Option String :=
  match resolved with
  | none => none
  | some hostname =>
    if '.' ∈ hostname.data then
      let firstLabel := String.mk (hostname.data.takeWhile (fun c => c != '.'))
      if pyReplaceChar '-' '.' firstLabel = ip then some hostname
      else some firstLabel
    else some hostname

/-- The scanner configuration and its I/O collaborators as seen by
`_scan_sync`'s response-parsing loop: `ouiLookup` is `self._oui_lookup`
(`none` when the `ouilookup` import failed), `resolveHostnames` is
`self._resolve_hostnames`, and `resolveAddr` gives the
`socket.gethostbyaddr` outcome per IP. -/
structure ScanConfig where
  ouiLookup : Option (String → Option String)
  resolveHostnames : Bool
  resolveAddr : String → Option String

/-- One iteration body of the parsing loop in `_scan_sync` (after the
duplicate check): `mac = received.hwsrc.lower()`, `ip = received.psrc`,
`vendor = self._oui_lookup(mac) if self._oui_lookup else None`,
`hostname = self._lookup_hostname(ip) if self._resolve_hostnames else None`,
then the appended dict. -/
def mkDevice (cfg : ScanConfig) (hwsrc psrc : String) : Device :=
  let mac := pyLower hwsrc
  let vendor : Option String :=
    match cfg.ouiLookup with
    | none => none
    | some lookup => lookup mac
  let hostname : Option String :=
    if cfg.resolveHostnames then lookupHostname (cfg.resolveAddr psrc) psrc
    else none
  { ip := psrc, mac := mac, vendor := pyOrUnknown vendor, hostname := hostname }

/-- The parsing loop of `_scan_sync` over the `answered` list (pairs
`(received.hwsrc, received.psrc)`), with its `seen_macs` duplicate filter:
a response whose lowercased hardware address was already seen is skipped,
otherwise a device is built and the address recorded. -/
def parseAnswered (cfg : ScanConfig) (seen : List String) :
    List (String × String) → List Device
  | [] => []
  | (hwsrc, psrc) :: rest =>
    if pyLower hwsrc ∈ seen then parseAnswered cfg seen rest
    else mkDevice cfg hwsrc psrc :: parseAnswered cfg (pyLower hwsrc :: seen) rest

/-- Outcome of `srp(packet, ...)` in `_scan_sync`: a list of answered pairs,
a raised `PermissionError`, or any other raised exception. -/
inductive ProbeOutcome where
  | answered (responses : List (String × String))
  | permissionError
  | otherError

/-- Which error branch of `_scan_sync` fired (each corresponds to one
`_LOGGER.error` call in the source); the error is logged only, never
returned to the caller. -/
inductive ScanError where
  | noInterfaceAvailable
  | noNetworkAvailable
  | permissionDenied
  | scanFailed
deriving DecidableEq, Repr

/-- The environment one `_scan_sync` call runs in: whether
`from scapy.all import ...` succeeds, the resolved values of the
`self.interface` and `self.network` properties, the probe outcome, and the
enrichment collaborators. -/
structure ScanEnv where
  scapyImportOk : Bool
  iface : Option String
  network : Option String
  probe : ProbeOutcome
  cfg : ScanConfig

/-- The body of `_scan_sync` after the scapy import: returns the device list
the Python function returns, paired with the error branch taken (`none` when
no error was logged).  Every failure branch in the source does
`_LOGGER.error(...)` and `return []`. -/
def scanSyncBody (env : ScanEnv) : List Device × Option ScanError :=
  match env.iface with
  | none => ([], some .noInterfaceAvailable)
  | some _ =>
    match env.network with
    | none => ([], some .noNetworkAvailable)
    | some _ =>
      match env.probe with
      | .permissionError => ([], some .permissionDenied)
      | .otherError => ([], some .scanFailed)
      | .answered responses => (parseAnswered env.cfg [] responses, none)

/-- `_scan_sync` as its caller sees it: the `from scapy.all import ...`
statement precedes the `try`, so an import failure is the one way the call
raises; every other failure is swallowed inside and yields a plain list. -/
def scanSync (env : ScanEnv) : Except Unit (List Device × Option ScanError) :=
  if env.scapyImportOk then .ok (scanSyncBody env) else .error ()

/-- The per-device keep/skip decision of the filtering loop in
`async_update_data`: `if include_list: if ip not in include_list: continue`,
`elif exclude_list and ip in exclude_list: continue`, else keep. -/
def keepDevice (includeList excludeList : List String) (d : Device) : Bool :=
  if includeList ≠ [] then decide (d.ip ∈ includeList)
  else if excludeList ≠ [] ∧ d.ip ∈ excludeList then false
  else true

/-- The Filter Stage: the filtering loop of `async_update_data` applied to a
device list. -/
def filterStage (includeList excludeList : List String)
    (devices : List Device) : List Device :=
  devices.filter (keepDevice includeList excludeList)

/-- `async_update_data`: raises `UpdateFailed` exactly when
`scanner.async_scan()` raises; otherwise filters the devices and builds the
`mac -> device` result mapping (an association list here; `_scan_sync`
output has pairwise distinct MACs, so insertion order is immaterial). -/
def asyncUpdateData (env : ScanEnv) (includeList excludeList : List String) :
    Except String (List (String × Device)) :=
  match scanSync env with
  | .error _ => .error "ARP scan failed"
  | .ok res =>
    .ok ((filterStage includeList excludeList res.1).map fun d => (d.mac, d))

/-- Whether `coordinator.async_config_entry_first_refresh()` succeeds in
`async_setup_entry`: the first refresh raises (aborting setup) exactly when
the first `async_update_data` call fails. -/
def setupFirstRefreshOk (env : ScanEnv)
    (includeList excludeList : List String) : Bool :=
  match asyncUpdateData env includeList excludeList with
  | .ok _ => true
  | .error _ => false

/-- `coordinator.data`: the `mac -> Device` mapping of the latest scan. -/
abbrev Snapshot := List (String × Device)

/-- Python dict key lookup `snap[mac]` / `mac in snap` combined:
`some d` when the key is present. -/
def lookupMac (mac : String) : Snapshot → Option Device
  | [] => none
  | (m, d) :: rest => if m = mac then some d else lookupMac mac rest

/-- The mutable fields of an `ArpScanDeviceTracker` entity relevant to its
properties: `self._mac`, `self._last_seen` (seconds, `none` = never seen),
and the `self._ip_address` / `self._hostname` values cached at entity
creation. -/
structure TrackerState where
  mac : String
  lastSeen : Option Int
  ipAtCreation : String
  hostnameAtCreation : Option String
deriving DecidableEq, Repr

/-- The `is_connected` property: returns its boolean value paired with the
updated entity state, because the property assigns
`self._last_seen = dt_util.utcnow()` when the MAC is in the latest snapshot.
Otherwise: connected iff `_last_seen` is set and
`now - _last_seen <= consider_home`. -/
def isConnectedEval (snap : Snapshot) (st : TrackerState)
    (now considerHome : Int) : Bool × TrackerState :=
  if (lookupMac st.mac snap).isSome then
    (true, { st with lastSeen := some now })
  else
    match st.lastSeen with
    | some t => if now - t ≤ considerHome then (true, st) else (false, st)
    | none => (false, st)

/-- The `ip_address` property: the device's IP when the MAC is in the latest
snapshot, else `None` (no fallback to the creation-time IP). -/
def ipAddressProp (snap : Snapshot) (st : TrackerState) : Option String :=
  match lookupMac st.mac snap with
  | some d => some d.ip
  | none => none

/-- The `hostname` property: the device's hostname when the MAC is in the
latest snapshot, else the hostname cached at entity creation. -/
def hostnameProp (snap : Snapshot) (st : TrackerState) : Option String :=
  match lookupMac st.mac snap with
  | some d => d.hostname
  | none => st.hostnameAtCreation

/-! Concrete instances used by witnesses and counterexamples. -/

/-- A scan configuration with no OUI database and hostname resolution off. -/
def cfgPlain : ScanConfig :=
  { ouiLookup := none, resolveHostnames := false, resolveAddr := fun _ => none }

/-- Sample device `192.168.1.10` / `aa:bb:cc:dd:ee:ff`. -/
def devA : Device :=
  { ip := "192.168.1.10", mac := "aa:bb:cc:dd:ee:ff", vendor := "Unknown",
    hostname := none }

/-- Sample device `192.168.1.20` / `11:22:33:44:55:66`. -/
def devB : Device :=
  { ip := "192.168.1.20", mac := "11:22:33:44:55:66", vendor := "Unknown",
    hostname := none }

/-- Environment where scapy imports but no network range is resolvable. -/
def envNoNetwork : ScanEnv :=
  { scapyImportOk := true, iface := some "eth0", network := none,
    probe := .answered [], cfg := cfgPlain }

/-- Environment where `srp` raises `PermissionError`. -/
def envPermDenied : ScanEnv :=
  { scapyImportOk := true, iface := some "eth0",
    network := some "192.168.1.0/24", probe := .permissionError,
    cfg := cfgPlain }

/-- Environment where the scapy import itself fails. -/
def envNoScapy : ScanEnv :=
  { scapyImportOk := false, iface := some "eth0",
    network := some "192.168.1.0/24", probe := .answered [], cfg := cfgPlain }

/-- A snapshot holding only `devA`. -/
def snapA : Snapshot := [("aa:bb:cc:dd:ee:ff", devA)]

/-- Tracker state for `devA`'s MAC, last seen at time 0. -/
def stA : TrackerState :=
  { mac := "aa:bb:cc:dd:ee:ff", lastSeen := some 0,
    ipAtCreation := "192.168.1.10", hostnameAtCreation := none }

/-- Tracker state for `devB`'s MAC with a cached hostname. -/
def stB : TrackerState :=
  { mac := "11:22:33:44:55:66", lastSeen := some 0,
    ipAtCreation := "192.168.1.20", hostnameAtCreation := some "printer" }

end ArpScanTracker

namespace ArpScanTracker

/-! Helper lemmas. -/

/-- The MAC of a parsed device is the lowercased source hardware address. -/
theorem mkDevice_mac (cfg : ScanConfig) (hwsrc psrc : String) :
    (mkDevice cfg hwsrc psrc).mac = pyLower hwsrc := rfl

/-- The vendor field of a parsed device. -/
theorem mkDevice_vendor (cfg : ScanConfig) (hwsrc psrc : String) :
    (mkDevice cfg hwsrc psrc).vendor =
      pyOrUnknown (match cfg.ouiLookup with
        | none => none
        | some lookup => lookup (pyLower hwsrc)) := rfl

/-- `v or "Unknown"` is never the empty string. -/
theorem pyOrUnknown_ne_empty (v : Option String) : pyOrUnknown v ≠ "" := by
  cases v with
  | none => simp [pyOrUnknown]
  | some s =>
    by_cases h : s = "" <;> simp [pyOrUnknown, h]

end ArpScanTracker

namespace ArpScanTracker

/-- C1: for a device record with non-null lastSeen, `is_connected` is true if
the MAC is a key of the latest snapshot, else true iff
`now - lastSeen <= considerHome`; in particular, for a MAC last observed at
`t0` and absent from the snapshot, the value is true throughout
`[t0, t0 + considerHome]` and false strictly after `t0 + considerHome`. -/
theorem c1_isConnected_decay (snap : Snapshot) (st : TrackerState)
    (t0 now considerHome : Int) (hls : st.lastSeen = some t0) :
    ((lookupMac st.mac snap).isSome = true →
      (isConnectedEval snap st now considerHome).1 = true)
    ∧ ((lookupMac st.mac snap).isSome = false →
      (isConnectedEval snap st now considerHome).1
        = decide (now - t0 ≤ considerHome))
    ∧ ((lookupMac st.mac snap).isSome = false → t0 ≤ now →
      now ≤ t0 + considerHome →
      (isConnectedEval snap st now considerHome).1 = true)
    ∧ ((lookupMac st.mac snap).isSome = false → t0 + considerHome < now →
      (isConnectedEval snap st now considerHome).1 = false) := by
  refine ⟨?_, ?_, ?_, ?_⟩
  · intro h
    simp [isConnectedEval, h]
  · intro h
    by_cases hc : now - t0 ≤ considerHome <;>
      simp [isConnectedEval, h, hls, hc]
  · intro h h1 h2
    have hc : now - t0 ≤ considerHome := by omega
    simp [isConnectedEval, h, hls, hc]
  · intro h h1
    have hc : ¬ (now - t0 ≤ considerHome) := by omega
    simp [isConnectedEval, h, hls, hc]

/-- C1 witness: with `considerHome = 180` and `lastSeen = 0`, the device
absent from the empty snapshot is still connected at time 100 and no longer
connected at time 200. -/
theorem c1_isConnected_decay_witness :
    (isConnectedEval [] stA 100 180).1 = true
    ∧ (isConnectedEval [] stA 200 180).1 = false := by
  have h100 := c1_isConnected_decay [] stA 0 100 180 rfl
  have h200 := c1_isConnected_decay [] stA 0 200 180 rfl
  exact ⟨h100.2.2.1 rfl (by decide) (by decide), h200.2.2.2 rfl (by decide)⟩

/-- C8: the Filter Stage is idempotent: filtering an already filtered device
list with the same include/exclude lists changes nothing. -/
theorem c8_filter_idempotent (includeList excludeList : List String)
    (devices : List Device) :
    filterStage includeList excludeList
        (filterStage includeList excludeList devices)
      = filterStage includeList excludeList devices := by
  apply List.filter_eq_self.mpr
  intro d hd
  exact List.of_mem_filter hd

/-- C9 counterexample: evaluating `is_connected` does not leave the presence
record unchanged: with the MAC present in the snapshot and
`_last_seen = some 0`, evaluation at time 5 overwrites `_last_seen` with 5. -/
theorem c9_counterexample :
    stA.lastSeen = some 0
    ∧ (isConnectedEval snapA stA 5 180).2.lastSeen = some 5
    ∧ (isConnectedEval snapA stA 5 180).2 ≠ stA := by
  refine ⟨rfl, by decide, by decide⟩

/-- C9 amended: the returned boolean is a pure function of (presence in the
snapshot, lastSeen, now, considerHome), but evaluation refreshes `lastSeen`
to `now` exactly when the MAC is in the snapshot (leaving the state unchanged
otherwise); a second evaluation at the same time against the same snapshot
returns the same value and leaves the state fixed. -/
theorem c9_amended (snap : Snapshot) (st : TrackerState)
    (now considerHome : Int) :
    (isConnectedEval snap (isConnectedEval snap st now considerHome).2
        now considerHome).1
      = (isConnectedEval snap st now considerHome).1
    ∧ (isConnectedEval snap (isConnectedEval snap st now considerHome).2
        now considerHome).2
      = (isConnectedEval snap st now considerHome).2
    ∧ ((lookupMac st.mac snap).isSome = true →
      (isConnectedEval snap st now considerHome).2
        = { st with lastSeen := some now })
    ∧ ((lookupMac st.mac snap).isSome = false →
      (isConnectedEval snap st now considerHome).2 = st) := by
  by_cases h : (lookupMac st.mac snap).isSome
  · refine ⟨?_, ?_, fun _ => ?_, fun hf => absurd h (by simp [hf])⟩ <;>
      simp [isConnectedEval, h]
  · have h' : (lookupMac st.mac snap).isSome = false := by
      simpa using h
    have hst : (isConnectedEval snap st now considerHome).2 = st := by
      simp only [isConnectedEval, h', Bool.false_eq_true, if_false]
      cases hls : st.lastSeen with
      | none => rfl
      | some t =>
        by_cases hc : now - t ≤ considerHome <;> simp [hc]
    refine ⟨?_, ?_, ?_, ?_⟩
    · rw [hst]
    · rw [hst]
      exact hst
    · intro ht
      exact absurd ht (by simp [h'])
    · intro _
      exact hst

/-- C9 amended witness: at a MAC present in the snapshot, the evaluation at
time 5 leaves the state `{ stA with lastSeen := some 5 }`. -/
theorem c9_amended_witness :
    (isConnectedEval snapA stA 5 180).2 = { stA with lastSeen := some 5 } :=
  (c9_amended snapA stA 5 180).2.2.1 rfl

/-- C10: for an entity whose MAC is absent from the latest snapshot, the
`ip_address` property is `none` while the `hostname` property falls back to
the hostname cached at entity creation — the two behaviors are asymmetric. -/
theorem c10_absent_mac_props (snap : Snapshot) (st : TrackerState)
    (h : lookupMac st.mac snap = none) :
    ipAddressProp snap st = none
    ∧ hostnameProp snap st = st.hostnameAtCreation := by
  constructor <;> simp [ipAddressProp, hostnameProp, h]

/-- C10 witness: `stB`'s MAC is absent from `snapA`; its `ip_address` is
`none` although the entity cached an IP at creation, while its `hostname`
falls back to the cached `"printer"`. -/
theorem c10_absent_mac_props_witness :
    ipAddressProp snapA stB = none
    ∧ hostnameProp snapA stB = stB.hostnameAtCreation := by
  exact c10_absent_mac_props snapA stB (by decide)

end ArpScanTracker

namespace ArpScanTracker

/-- C2: with a non-empty include list the Filter Stage keeps exactly the
devices whose IP is in the include list and ignores the exclude list
entirely; with an empty include list and non-empty exclude list it drops
exactly the devices whose IP is in the exclude list; with both empty it
passes the device list through unchanged; and under a non-empty include
list no device with an IP outside it survives filtering. -/
theorem c2_filter_modes (includeList excludeList : List String)
    (devices : List Device) :
    (includeList ≠ [] →
      (filterStage includeList excludeList devices
        = devices.filter (fun d => decide (d.ip ∈ includeList))
      ∧ ∀ excludeList2, filterStage includeList excludeList devices
          = filterStage includeList excludeList2 devices))
    ∧ (includeList = [] → excludeList ≠ [] →
      filterStage includeList excludeList devices
        = devices.filter (fun d => decide (d.ip ∉ excludeList)))
    ∧ (includeList = [] → excludeList = [] →
      filterStage includeList excludeList devices = devices)
    ∧ (includeList ≠ [] → ∀ d ∈ filterStage includeList excludeList devices,
      d.ip ∈ includeList) := by
  refine ⟨?_, ?_, ?_, ?_⟩
  · intro h
    have hk : ∀ (excl : List String),
        filterStage includeList excl devices
          = devices.filter (fun d => decide (d.ip ∈ includeList)) := by
      intro excl
      exact List.filter_congr (fun d _ => by simp [keepDevice, h])
    exact ⟨hk excludeList, fun excl2 => (hk excludeList).trans (hk excl2).symm⟩
  · intro h hne
    subst h
    refine List.filter_congr (fun d _ => ?_)
    by_cases hd : d.ip ∈ excludeList <;> simp [keepDevice, hne, hd]
  · intro h he
    subst h; subst he
    have : filterStage [] [] devices = devices.filter (fun _ => true) :=
      List.filter_congr (fun d _ => by simp [keepDevice])
    rw [this, List.filter_true]
  · intro h d hd
    simp only [filterStage] at hd
    have hk := List.of_mem_filter hd
    simpa [keepDevice, h] using hk

/-- C2 witness: with `include = ["192.168.1.10"]` and
`exclude = ["192.168.1.20"]`, filtering keeps exactly the devices whose IP
is in the include list, and `devA`'s IP is inside it. -/
theorem c2_filter_modes_witness :
    filterStage ["192.168.1.10"] ["192.168.1.20"] [devA, devB]
      = [devA, devB].filter (fun d => decide (d.ip ∈ ["192.168.1.10"]))
    ∧ devA.ip ∈ ["192.168.1.10"] := by
  have h := c2_filter_modes ["192.168.1.10"] ["192.168.1.20"] [devA, devB]
  exact ⟨(h.1 (by decide)).1, h.2.2.2 (by decide) devA (by decide)⟩

/-- Every device the parsing loop emits is `mkDevice` of some response. -/
theorem parseAnswered_mem (cfg : ScanConfig) :
    ∀ (responses : List (String × String)) (seen : List String) (d : Device),
      d ∈ parseAnswered cfg seen responses →
      ∃ hwsrc psrc, d = mkDevice cfg hwsrc psrc := by
  intro responses
  induction responses with
  | nil =>
    intro seen d hd
    simp [parseAnswered] at hd
  | cons r rest ih =>
    intro seen d hd
    obtain ⟨hw, ps⟩ := r
    by_cases hseen : pyLower hw ∈ seen
    · exact ih seen d (by simpa [parseAnswered, hseen] using hd)
    · simp only [parseAnswered, hseen, if_false] at hd
      rcases List.mem_cons.mp hd with heq | hmem
      · exact ⟨hw, ps, heq⟩
      · exact ih (pyLower hw :: seen) d hmem

/-- C6: a scanned device's vendor is never the empty string (and by type it
is never null): an absent OUI database, a raising lookup, and an empty query
result all yield `None` from `_lookup_vendor`, which the scan records as
`"Unknown"`. -/
theorem c6_vendor_never_empty (cfg : ScanConfig)
    (responses : List (String × String)) (mac : String)
    (query : String → OuiQueryOutcome) :
    (∀ d ∈ parseAnswered cfg [] responses, d.vendor ≠ "")
    ∧ (cfg.ouiLookup = none →
      ∀ hwsrc psrc, (mkDevice cfg hwsrc psrc).vendor = "Unknown")
    ∧ (∀ f, cfg.ouiLookup = some f →
      ∀ hwsrc psrc, f (pyLower hwsrc) = none →
        (mkDevice cfg hwsrc psrc).vendor = "Unknown")
    ∧ lookupVendor none mac = none
    ∧ (query mac = .raises → lookupVendor (some query) mac = none)
    ∧ (query mac = .ok [] → lookupVendor (some query) mac = none) := by
  refine ⟨?_, ?_, ?_, rfl, ?_, ?_⟩
  · intro d hd
    obtain ⟨hw, ps, rfl⟩ := parseAnswered_mem cfg responses [] d hd
    rw [mkDevice_vendor]
    exact pyOrUnknown_ne_empty _
  · intro h hwsrc psrc
    simp [mkDevice_vendor, h, pyOrUnknown]
  · intro f h hwsrc psrc hf
    simp [mkDevice_vendor, h, hf, pyOrUnknown]
  · intro h
    simp [lookupVendor, h]
  · intro h
    simp [lookupVendor, h, firstDictValue]

/-- C6 witness: with no OUI database the scanned vendor is `"Unknown"`, and
a raising query yields `None` from `_lookup_vendor`. -/
theorem c6_vendor_never_empty_witness :
    (mkDevice cfgPlain "AA:BB:CC:DD:EE:FF" "192.168.1.10").vendor = "Unknown"
    ∧ lookupVendor (some fun _ => OuiQueryOutcome.raises) "aa:bb:cc:dd:ee:ff"
      = none := by
  have h := c6_vendor_never_empty cfgPlain [] "aa:bb:cc:dd:ee:ff"
    (fun _ => OuiQueryOutcome.raises)
  exact ⟨h.2.1 rfl "AA:BB:CC:DD:EE:FF" "192.168.1.10", h.2.2.2.2.1 rfl⟩

/-- The first piece of a single-character split is the prefix before the
first separator occurrence. -/
theorem splitOnChar_headD (sep : Char) (l : List Char) :
    (splitOnChar sep l).headD [] = l.takeWhile (fun c => c != sep) := by
  induction l with
  | nil => rfl
  | cons c cs ih =>
    by_cases h : c = sep
    · simp [splitOnChar, h, List.takeWhile_cons]
    · simp [splitOnChar, h, List.takeWhile_cons]
      simpa using ih

/-- C7: `_lookup_hostname` behaves exactly as the specification words it:
failure yields `None`; a dotted name yields its first label unless that
label with hyphens mapped back to dots equals the literal IP (then the full
name is kept); an undotted name is returned as-is. -/
theorem c7_hostname_refines_spec (resolved : Option String) (ip : String) :
    lookupHostname resolved ip = hostnameRuleSpec resolved ip := by
  cases resolved with
  | none => rfl
  | some hostname =>
    by_cases hd : '.' ∈ hostname.data
    · have hne : hostname ≠ "" := fun h => absurd (h ▸ hd) (by decide)
      simp only [lookupHostname, hostnameRuleSpec]
      rw [if_pos ⟨hne, hd⟩, if_pos hd, splitOnChar_headD]
    · have hcond : ¬(hostname ≠ "" ∧ '.' ∈ hostname.data) := fun h => hd h.2
      simp only [lookupHostname, hostnameRuleSpec]
      rw [if_neg hcond, if_neg hd]

end ArpScanTracker

namespace ArpScanTracker

/-- Once a MAC is in `seen_macs`, no device with that MAC is ever emitted. -/
theorem parseAnswered_filter_of_mem_seen (cfg : ScanConfig) (m : String) :
    ∀ (responses : List (String × String)) (seen : List String), m ∈ seen →
      (parseAnswered cfg seen responses).filter (fun d => d.mac == m)
        = [] := by
  intro responses
  induction responses with
  | nil =>
    intro seen _
    rfl
  | cons r rest ih =>
    intro seen hm
    obtain ⟨hw, ps⟩ := r
    by_cases hseen : pyLower hw ∈ seen
    · simp only [parseAnswered, hseen, if_true]
      exact ih seen hm
    · have hne : (pyLower hw == m) = false := by
        simp only [beq_eq_false_iff_ne]
        intro heq
        exact hseen (heq ▸ hm)
      simp only [parseAnswered, hseen, if_false, List.filter_cons,
        mkDevice_mac, hne, Bool.false_eq_true]
      exact ih (pyLower hw :: seen) (List.mem_cons_of_mem _ hm)

/-- For a MAC not yet in `seen_macs`, the devices emitted with that MAC are
exactly the device built from the first response carrying it. -/
theorem parseAnswered_filter_of_not_mem_seen (cfg : ScanConfig) (m : String) :
    ∀ (responses : List (String × String)) (seen : List String), m ∉ seen →
      (parseAnswered cfg seen responses).filter (fun d => d.mac == m)
        = ((responses.find? fun r => pyLower r.1 == m).map
            fun r => mkDevice cfg r.1 r.2).toList := by
  intro responses
  induction responses with
  | nil =>
    intro seen _
    rfl
  | cons r rest ih =>
    intro seen hm
    obtain ⟨hw, ps⟩ := r
    by_cases hcase : pyLower hw = m
    · have hbeq : (pyLower hw == m) = true := beq_iff_eq.mpr hcase
      have hseen : pyLower hw ∉ seen := hcase ▸ hm
      have hfind : List.find? (fun r => pyLower r.1 == m) ((hw, ps) :: rest)
          = some (hw, ps) :=
        List.find?_cons_of_pos _ (by simpa using hbeq)
      simp only [parseAnswered, hseen, if_false, List.filter_cons,
        mkDevice_mac, hbeq, if_true]
      rw [hfind]
      have htail : (parseAnswered cfg (pyLower hw :: seen) rest).filter
          (fun d => d.mac == m) = [] :=
        parseAnswered_filter_of_mem_seen cfg m rest (pyLower hw :: seen)
          (hcase ▸ List.mem_cons_self _ _)
      rw [htail]
      rfl
    · have hbeq : (pyLower hw == m) = false := beq_eq_false_iff_ne.mpr hcase
      have hfind : List.find? (fun r => pyLower r.1 == m) ((hw, ps) :: rest)
          = List.find? (fun r => pyLower r.1 == m) rest :=
        List.find?_cons_of_neg _ (by simp [hbeq])
      rw [hfind]
      by_cases hseen : pyLower hw ∈ seen
      · simp only [parseAnswered, hseen, if_true]
        exact ih seen hm
      · have hm' : m ∉ pyLower hw :: seen := by
          intro hcontra
          rcases List.mem_cons.mp hcontra with h1 | h1
          · exact hcase h1.symm
          · exact hm h1
        simp only [parseAnswered, hseen, if_false, List.filter_cons,
          mkDevice_mac, hbeq, Bool.false_eq_true]
        exact ih (pyLower hw :: seen) hm'

/-- The emitted MAC addresses are pairwise distinct and disjoint from
`seen_macs`. -/
theorem parseAnswered_macs_nodup (cfg : ScanConfig) :
    ∀ (responses : List (String × String)) (seen : List String),
      ((parseAnswered cfg seen responses).map Device.mac).Nodup
      ∧ ∀ x ∈ (parseAnswered cfg seen responses).map Device.mac,
        x ∉ seen := by
  intro responses
  induction responses with
  | nil =>
    intro seen
    exact ⟨List.nodup_nil, by simp [parseAnswered]⟩
  | cons r rest ih =>
    intro seen
    obtain ⟨hw, ps⟩ := r
    by_cases hseen : pyLower hw ∈ seen
    · simpa only [parseAnswered, hseen, if_true] using ih seen
    · have h2 := ih (pyLower hw :: seen)
      constructor
      · simp only [parseAnswered, hseen, if_false, List.map_cons,
          mkDevice_mac, List.nodup_cons]
        refine ⟨fun hmem => ?_, h2.1⟩
        exact (h2.2 _ hmem) (List.mem_cons_self _ _)
      · intro x hx
        simp only [parseAnswered, hseen, if_false, List.map_cons,
          mkDevice_mac, List.mem_cons] at hx
        rcases hx with hx | hx
        · exact hx ▸ hseen
        · exact fun hxs => (h2.2 x hx) (List.mem_cons_of_mem _ hxs)

/-- C3: the scan output has pairwise distinct MAC addresses, and for every
MAC the devices emitted with it are exactly the one built from the
first-received response with that (lowercased) hardware address — so ARP
flux (one hardware address answering for several IPs) yields exactly one
device, carrying the first-received IP. -/
theorem c3_dedup_first_response_wins (cfg : ScanConfig)
    (responses : List (String × String)) (m : String) :
    ((parseAnswered cfg [] responses).map Device.mac).Nodup
    ∧ (parseAnswered cfg [] responses).filter (fun d => d.mac == m)
      = ((responses.find? fun r => pyLower r.1 == m).map
          fun r => mkDevice cfg r.1 r.2).toList :=
  ⟨(parseAnswered_macs_nodup cfg responses []).1,
    parseAnswered_filter_of_not_mem_seen cfg m responses []
      (List.not_mem_nil m)⟩

end ArpScanTracker

namespace ArpScanTracker

/-- C4 counterexample: when the first cycle cannot run at all — no network
range resolvable, or probing denied by `PermissionError` — `_scan_sync`
swallows the failure and returns `[]`, so the first refresh succeeds with an
empty snapshot and setup proceeds instead of aborting. -/
theorem c4_setup_counterexample :
    (scanSyncBody envNoNetwork).2 = some ScanError.noNetworkAvailable
    ∧ asyncUpdateData envNoNetwork [] [] = Except.ok []
    ∧ setupFirstRefreshOk envNoNetwork [] [] = true
    ∧ (scanSyncBody envPermDenied).2 = some ScanError.permissionDenied
    ∧ setupFirstRefreshOk envPermDenied [] [] = true :=
  ⟨rfl, rfl, rfl, rfl, rfl⟩

/-- C4 amended: the first refresh aborts setup exactly when the scan call
raises, which happens only when the scapy import itself fails; every failure
handled inside `_scan_sync` (unresolvable interface or network, permission
denial, transport failure) yields an empty device list, is logged only, and
lets setup proceed. -/
theorem c4_setup_amended (env : ScanEnv)
    (includeList excludeList : List String) :
    (env.scapyImportOk = false →
      setupFirstRefreshOk env includeList excludeList = false)
    ∧ (env.scapyImportOk = true →
      setupFirstRefreshOk env includeList excludeList = true) := by
  constructor <;> intro h <;>
    simp [setupFirstRefreshOk, asyncUpdateData, scanSync, h]

/-- C4 amended witness: a failing scapy import aborts setup; an unresolvable
network does not. -/
theorem c4_setup_amended_witness :
    setupFirstRefreshOk envNoScapy [] [] = false
    ∧ setupFirstRefreshOk envNoNetwork [] [] = true :=
  ⟨(c4_setup_amended envNoScapy [] []).1 rfl,
    (c4_setup_amended envNoNetwork [] []).2 rfl⟩

/-- C5 counterexample: distinct failure modes (permission denial versus an
unresolvable network) both return the bare empty list, and the caller's
update result is identical in the two cases — no `PermissionDenied` or
`TargetUnresolved` condition is signalled to the caller, only logged. -/
theorem c5_signal_counterexample :
    (scanSyncBody envPermDenied).1 = []
    ∧ (scanSyncBody envNoNetwork).1 = []
    ∧ (scanSyncBody envPermDenied).1 = (scanSyncBody envNoNetwork).1
    ∧ asyncUpdateData envPermDenied [] [] = asyncUpdateData envNoNetwork [] []
    ∧ (scanSyncBody envPermDenied).2 ≠ (scanSyncBody envNoNetwork).2 :=
  ⟨rfl, rfl, rfl, rfl, by decide⟩

/-- C5 amended: every failure mode of `_scan_sync` yields the empty device
list without raising (the scheduler is never crashed), and the condition is
recorded in a distinct error log — unresolvable interface or network, a
`PermissionError` from the probe, and any other transport failure each take
their own logging branch — but only the bare list reaches the caller. -/
theorem c5_failure_modes_amended (env : ScanEnv) :
    (env.iface = none →
      scanSyncBody env = ([], some ScanError.noInterfaceAvailable))
    ∧ (∀ i, env.iface = some i → env.network = none →
      scanSyncBody env = ([], some ScanError.noNetworkAvailable))
    ∧ (∀ i n, env.iface = some i → env.network = some n →
      env.probe = ProbeOutcome.permissionError →
      scanSyncBody env = ([], some ScanError.permissionDenied))
    ∧ (∀ i n, env.iface = some i → env.network = some n →
      env.probe = ProbeOutcome.otherError →
      scanSyncBody env = ([], some ScanError.scanFailed)) := by
  refine ⟨?_, ?_, ?_, ?_⟩ <;> intros <;> simp_all [scanSyncBody]

/-- C5 amended witness: the permission-denial environment returns the empty
list with the permission-denied branch logged. -/
theorem c5_failure_modes_amended_witness :
    scanSyncBody envPermDenied = ([], some ScanError.permissionDenied) :=
  (c5_failure_modes_amended envPermDenied).2.2.1 "eth0" "192.168.1.0/24"
    rfl rfl rfl

end ArpScanTracker
